import Mathlib

/-!
Shallow embedding of the core of `omarchy-display-control-center`
(`src/display_settings.cpp`, `src/display_settings.hpp`,
`src/theme_manager.cpp`, `src/theme_manager.hpp`) and proofs about it.

Modelling conventions:
* C++ `int` becomes `Int` (no arithmetic is performed on these values other
  than comparison and decimal printing, so overflow is irrelevant).
* C++ `double` becomes `ℚ`; `static_cast<int>` on a double is truncation
  toward zero (`truncQ`).
* nlohmann JSON values become the inductive `Json`; the library calls used by
  the source (`contains`, `operator[]`, `value(key, default)`, `get<double>`,
  `get<int>`, `is_array`, `is_string`) are modelled faithfully, including the
  `type_error` exceptions they raise on a type mismatch, as `Except JErr`.
* the external process spawn (`Glib::spawn_sync`) is a collaborator: callers
  of the embedded functions supply its outcome (`SpawnResult`); the JSON text
  parser (`json::parse`) is likewise supplied as a `String → Option Json`
  collaborator, `none` standing for a parse exception.
* the GIO file monitor / sigc connection lifecycle is modelled as an explicit
  state machine (`WatchState`) with test-double counters for subscribe and
  unsubscribe events, as the spec's own testable properties suggest.
-/

/-! ## JSON model (nlohmann::json as used by the source) -/

/-- A JSON value. Integral and floating numbers are merged into one rational
constructor; nlohmann converts freely between its numeric kinds, and
`get<int>` on a float truncates, which `truncQ` reproduces. -/
inductive Json where
  | null
  | bool (b : Bool)
  | num (q : ℚ)
  | str (s : String)
  | arr (elems : List Json)
  | obj (fields : List (String × Json))

/-- `static_cast<int>` applied to a C++ double: truncation toward zero. -/
def truncQ (q : ℚ) : Int :=
  if q < 0 then -((-q).floor) else q.floor

/-- nlohmann `type_error`; the source never inspects the message, so the
error carries no data. -/
inductive JErr where
  | typeError
deriving DecidableEq

instance {ε α : Type} [DecidableEq ε] [DecidableEq α] :
    DecidableEq (Except ε α)
  | .error e₁, .error e₂ =>
    if h : e₁ = e₂ then .isTrue (by rw [h]) else .isFalse (by simp [h])
  | .error _, .ok _ => .isFalse (by simp)
  | .ok _, .error _ => .isFalse (by simp)
  | .ok a₁, .ok a₂ =>
    if h : a₁ = a₂ then .isTrue (by rw [h]) else .isFalse (by simp [h])

/-- Field lookup: `j[k]` / `j.find(k)` on an object. On a non-object there is
no field, matching `contains` returning false there. -/
def Json.find : Json → String → Option Json
  | .obj fields, k => fields.lookup k
  | _, _ => none

/-- `j.contains(k)`: true iff `j` is an object with field `k`. -/
def Json.containsKey (j : Json) (k : String) : Bool :=
  (j.find k).isSome

/-- `x.get<double>()`: succeeds only on a number (nlohmann raises
`type_error.302` on every other kind, booleans included). -/
def Json.getD : Json → Except JErr ℚ
  | .num q => .ok q
  | _ => .error .typeError

/-- `x.get<int>()`: numeric value truncated toward zero, `type_error`
otherwise. -/
def Json.getI (j : Json) : Except JErr Int :=
  (j.getD).map truncQ

/-- `j.value(k, d)` with an `int` default: nlohmann returns `d` when the key
is absent, `get<int>` of the field when present, and raises `type_error.306`
when `j` is not an object. -/
def Json.valueI (j : Json) (k : String) (d : Int) : Except JErr Int :=
  match j with
  | .obj fields =>
    match fields.lookup k with
    | some v => v.getI
    | none => .ok d
  | _ => .error .typeError

/-- `j.value(k, d)` with a `double` default (same shape as `Json.valueI`). -/
def Json.valueQ (j : Json) (k : String) (d : ℚ) : Except JErr ℚ :=
  match j with
  | .obj fields =>
    match fields.lookup k with
    | some v => v.getD
    | none => .ok d
  | _ => .error .typeError

/-! ## display_settings: data model -/

/-- `struct DisplayMode` from display_settings.hpp. -/
structure DisplayMode where
  width : Int := 0
  height : Int := 0
  refreshRate : Int := 0
deriving DecidableEq

/-- `struct MonitorInfo` from display_settings.hpp. -/
structure MonitorInfo where
  name : String := ""
  x : Int := 0
  y : Int := 0
  scale : ℚ := 1
  modes : List DisplayMode := []
  current : DisplayMode := {}
deriving DecidableEq

/-! ## display_settings: parseMonitor (lines 50-113) -/

/-- The duplicated refresh-rate extraction chain of parseMonitor
(theme drift tolerance), lines 73-79 for the current mode and the textually
identical lines 93-98 for a mode entry: newer spelling `refreshRate` first,
older `refresh_rate` second, default 60; a present value is read with
`get<double>()` and cast to `int` (truncation). -/
def refreshFrom (j : Json) : Except JErr Int :=
  match j.find "refreshRate" with
  | some v => (v.getD).map truncQ
  | none =>
    match j.find "refresh_rate" with
    | some v => (v.getD).map truncQ
    | none => .ok 60

/-- One entry of the `modes` array (lines 88-98): `m.value("width", 0)`,
`m.value("height", 0)`, then the refresh chain. -/
def parseModeEntry (m : Json) : Except JErr DisplayMode := do
  let w ← m.valueI "width" 0
  let h ← m.valueI "height" 0
  let r ← refreshFrom m
  return { width := w, height := h, refreshRate := r }

/-- The loop body over `j["modes"]` (lines 86-104): parse each entry in
order, keep only entries with strictly positive width, height and refresh
rate; a library exception from any entry aborts the whole loop. -/
def validModesAux : List Json → Except JErr (List DisplayMode)
  | [] => .ok []
  | m :: rest => do
    let mode ← parseModeEntry m
    let tail ← validModesAux rest
    return (if 0 < mode.width ∧ 0 < mode.height ∧ 0 < mode.refreshRate then
              mode :: tail
            else tail)

/-- `out.modes` after the loop of lines 83-105 (before the fallback):
empty unless `j` contains a `modes` field that is an array. -/
def validModes (j : Json) : Except JErr (List DisplayMode) :=
  match j.find "modes" with
  | some (.arr ms) => validModesAux ms
  | _ => .ok []

/-- `parseMonitor` (display_settings.cpp lines 50-113). `ok none` models
`return false` (no usable `name` field); the out-parameter result is the
payload of `ok some`. Field reads happen in source order; any nlohmann
`type_error` propagates. -/
def parseMonitor (j : Json) : Except JErr (Option MonitorInfo) :=
  match j.find "name" with
  | some (.str name) => do
    let x ← j.valueI "x" 0
    let y ← j.valueI "y" 0
    let scale ← j.valueQ "scale" 1
    let cw ← j.valueI "width" 0
    let ch ← j.valueI "height" 0
    let cr ← refreshFrom j
    let current : DisplayMode := { width := cw, height := ch, refreshRate := cr }
    let ms ← validModes j
    let modes :=
      if ms = [] ∧ 0 < cw ∧ 0 < ch ∧ 0 < cr then [current] else ms
    return some { name := name, x := x, y := y, scale := scale,
                  modes := modes, current := current }
  | _ => .ok none

/-! ## display_settings: getMonitors (lines 120-186) -/

/-- Outcome of `Glib::spawn_sync`: either the spawn itself failed
(`Glib::Error` thrown) or the child ran, yielding captured stdout, stderr
and an exit status. -/
inductive SpawnResult where
  | spawnFail (msg : String)
  | finished (stdoutStr stderrStr : String) (exitStatus : Int)

/-- The loop of lines 178-183: run `parseMonitor` on each array element,
keep the successes, skip elements whose parse returned false; a library
exception from an element is NOT caught and propagates. -/
def getMonitorsAux : List Json → Except JErr (List MonitorInfo)
  | [] => .ok []
  | e :: rest => do
    let info? ← parseMonitor e
    let tail ← getMonitorsAux rest
    return (match info? with
            | some info => info :: tail
            | none => tail)

/-- `DisplaySettings::getMonitors` (lines 120-186), with the spawn outcome
and the JSON text parser (`json::parse`; `none` = parse exception, caught at
lines 158-168) supplied by the caller. Spawn failure, non-zero exit, empty
stdout, unparseable stdout and a non-array root all yield the empty list;
only per-element nlohmann type errors escape. -/
def getMonitors (parse : String → Option Json) (r : SpawnResult) :
    Except JErr (List MonitorInfo) :=
  match r with
  | .spawnFail _ => .ok []
  | .finished stdoutStr _ exitStatus =>
    if exitStatus ≠ 0 ∨ stdoutStr = "" then .ok []
    else
      match parse stdoutStr with
      | none => .ok []
      | some j =>
        match j with
        | .arr elems => getMonitorsAux elems
        | _ => .ok []

/-! ## display_settings: applyMonitor (lines 188-263) -/

/-- Decimal digits of a natural number, left-padded with zeros to width
`d`. -/
def padDigits (n : Nat) (d : Nat) : String :=
  let s := toString n
  String.mk (List.replicate (d - s.length) '0') ++ s

/-- Drop trailing zero decimal digits: `stripZeros f d = (f', d')` where the
`d`-digit fraction `f` equals the `d'`-digit fraction `f'` with no trailing
zero. -/
def stripZeros : Nat → Nat → Nat × Nat
  | f, 0 => (f, 0)
  | f, d + 1 => if f % 10 = 0 then stripZeros (f / 10) d else (f, d + 1)

/-- Round `p / q` (`q > 0`) to the nearest natural, halves away from zero,
as the decimal conversion does. -/
def roundDiv (p q : Nat) : Nat :=
  (2 * p + q) / (2 * q)

/-- Number of decimal digits of `n` (one digit for `0`). -/
def digitsLen (n : Nat) : Nat := (Nat.repr n).length

/-- Fuel-driven search for the smallest `k` (starting at `k₀`) with
`num * 10 ^ k ≥ den`; the callers pass enough fuel for the search to
finish. -/
def smallestPowAux (num den : Nat) : Nat → Nat → Nat
  | k₀, 0 => k₀
  | k₀, fuel + 1 =>
    if den ≤ num * 10 ^ k₀ then k₀ else smallestPowAux num den (k₀ + 1) fuel

/-- The decimal exponent of the positive rational `num / den`: the `X`
with `10 ^ X ≤ num / den < 10 ^ (X + 1)`. For values at least 1 it is one
less than the digit count of the integer part; for values below 1 it is
minus the smallest `k` with `num * 10 ^ k ≥ den` (which exists within
`digitsLen den` steps). -/
def decExpND (num den : Nat) : Int :=
  if den ≤ num then (digitsLen (num / den) : Int) - 1
  else -(smallestPowAux num den 0 (digitsLen den) : Int)

/-- Modelled from `std::ostream << double` with default flags (precision 6,
defaultfloat), i.e. printf `%g`: six significant digits, fixed notation when
the decimal exponent X satisfies -4 ≤ X ≤ 5 and scientific notation
otherwise, with trailing zeros (and a bare decimal point) removed, and a
signed two-digit exponent. The argument is the exact rational value of the
double. -/
def fmtDouble (q : ℚ) : String :=
  if q.num = 0 then "0"
  else
    let sign := if q.num < 0 then "-" else ""
    let A := q.num.natAbs
    let D := q.den
    let X : Int := decExpND A D
    if -4 ≤ X ∧ X ≤ 5 then
      -- fixed: 5 - X digits after the decimal point, then strip
      let d := (5 - X).toNat
      let n := roundDiv (A * 10 ^ d) D
      let whole := n / 10 ^ d
      let (frac, d₂) := stripZeros (n % 10 ^ d) d
      sign ++ toString whole ++
        (if d₂ = 0 then "" else "." ++ padDigits frac d₂)
    else
      -- scientific: mantissa in [1, 10) with 5 digits after the point
      let n₀ := if 0 ≤ X then roundDiv (A * 10 ^ 5) (D * 10 ^ X.toNat)
                else roundDiv (A * 10 ^ (5 + (-X).toNat)) D
      let (n, e) : Nat × Int :=
        if 10 ^ 6 ≤ n₀ then (n₀ / 10, X + 1) else (n₀, X)
      let (frac, d₂) := stripZeros (n % 10 ^ 5) 5
      let expoStr :=
        if e < 0 then "e-" ++ padDigits (-e).toNat 2
        else "e+" ++ padDigits e.toNat 2
      sign ++ toString (n / 10 ^ 5) ++
        (if d₂ = 0 then "" else "." ++ padDigits frac d₂) ++ expoStr

/-- Result of `DisplaySettings::applyMonitor` together with the test-double
observation of the external calls it performed: `success` is the returned
bool, `error` the message written through the out-parameter (none when no
message is written), `invocations` the argv of every spawn attempted. -/
structure ApplyOutcome where
  success : Bool
  error : Option String
  invocations : List (List String)
deriving DecidableEq

/-- `DisplaySettings::applyMonitor` (lines 188-263), with the spawn outcome
for a given argv supplied by the `runner` collaborator. Validation happens
first (line 194); on valid input the configuration token
`<w>x<h>@<hz>,<x>x<y>,<scale>` is built with `ostringstream` formatting and
`hyprctl keyword monitor <name>,<token>` is spawned; the result is
interpreted per lines 233-262. -/
def applyMonitor (runner : List String → SpawnResult) (name : String)
    (width height refreshRate posX posY : Int) (scale : ℚ) : ApplyOutcome :=
  if name = "" ∨ width ≤ 0 ∨ height ≤ 0 ∨ refreshRate ≤ 0 then
    { success := false, error := some "Invalid parameters", invocations := [] }
  else
    let arg := toString width ++ "x" ++ toString height ++ "@" ++
               toString refreshRate ++ "," ++ toString posX ++ "x" ++
               toString posY ++ "," ++ fmtDouble scale
    let argv := ["hyprctl", "keyword", "monitor", name ++ "," ++ arg]
    match runner argv with
    | .spawnFail msg =>
      { success := false, error := some msg, invocations := [argv] }
    | .finished stdoutStr stderrStr exitStatus =>
      if exitStatus ≠ 0 then
        let e₀ := if stderrStr = "" then stdoutStr else stderrStr
        let e₁ := if e₀ = "" then
                    "hyprctl failed with exit code " ++ toString exitStatus
                  else e₀
        { success := false, error := some e₁, invocations := [argv] }
      else
        { success := true, error := none, invocations := [argv] }

/-! ## theme_manager: parseThemeFile (lines 114-183)

The color map `std::unordered_map<std::string, std::string>` is modelled as
an association list with unique keys; `colors[key] = value` is
`mapInsert`. -/

/-- `colors[key] = value` on an unordered_map: replace the existing entry
for `key` or add one. -/
def mapInsert (m : List (String × String)) (k v : String) :
    List (String × String) :=
  match m with
  | [] => [(k, v)]
  | (k₀, v₀) :: rest =>
    if k₀ = k then (k, v) :: rest else (k₀, v₀) :: mapInsert rest k v

/-- The whitespace set `" \t\r\n"` of the anonymous-namespace `trim` helper
(theme_manager.cpp lines 54-70). -/
def isThemeWS (c : Char) : Bool :=
  c = ' ' || c = '\t' || c = '\r' || c = '\n'

/-- The `trim` helper (lines 54-70): drop the characters of `" \t\r\n"`
from both ends. `find_first_not_of`/`find_last_not_of` over bytes and this
character-level version agree, because the searched-for bytes are ASCII and
UTF-8 continuation bytes are never in the set. -/
def trim (s : String) : String :=
  String.mk (((s.data.dropWhile isThemeWS).reverse.dropWhile
      isThemeWS).reverse)

/-- `line.find('=')` followed by `substr(0, eq)` / `substr(eq + 1)`
(lines 148-159): `none` when no `'='` occurs, otherwise the parts before
and after the first `'='`. Splitting at the first `'='` character and at
the first `'='` byte coincide, `'='` being ASCII. -/
def splitAtFirstEq : List Char → Option (List Char × List Char)
  | [] => none
  | c :: rest =>
    if c = '=' then some ([], rest)
    else
      match splitAtFirstEq rest with
      | some (pre, post) => some (c :: pre, post)
      | none => none

/-- `s[0] == c` for an ASCII `c` (the first byte of a non-ASCII first
character never equals an ASCII byte, so the character-level check
agrees). -/
def startsWithChar (s : String) (c : Char) : Bool :=
  match s.data with
  | c₀ :: _ => c₀ = c
  | [] => false

/-- `value.compare(0, 3, "rgb") == 0` (line 165): the first three
characters are `rgb` (again byte/character agreement for an ASCII
pattern). -/
def startsWithRgb (s : String) : Bool :=
  s.data.take 3 = ['r', 'g', 'b']

/-- The body of the `while (std::getline...)` loop of parseThemeFile
(lines 131-180), processing one raw line against the accumulated map:
trim; skip empty lines, comment lines (first byte `#`) and lines without
`=`; split at the first `=`, trim both halves; store iff the key is
non-empty and the value is at least 4 bytes long and starts with `#` or
with `rgb` (the source stores the same string in both the `#` and the
`rgb` branch of lines 167-179, so they are collapsed here). C++ `size()`
counts bytes, hence `utf8ByteSize`. -/
def processLine (colors : List (String × String)) (raw : String) :
    List (String × String) :=
  let line := trim raw
  if line = "" then colors
  else if startsWithChar line '#' then colors
  else
    match splitAtFirstEq line.data with
    | none => colors
    | some (pre, post) =>
      let key := trim (String.mk pre)
      let value := trim (String.mk post)
      if key ≠ "" ∧ 4 ≤ value.utf8ByteSize ∧
         (startsWithChar value '#' ∨
          (3 ≤ value.utf8ByteSize ∧ startsWithRgb value)) then
        mapInsert colors key value
      else colors

/-- `ThemeManager::parseThemeFile` (lines 114-183). The file system is a
collaborator: `none` models a file that cannot be opened (the `if (!f)`
branch, returning the empty map), `some lines` the sequence of lines
`std::getline` yields. -/
def parseThemeFile (file : Option (List String)) : List (String × String) :=
  match file with
  | none => []
  | some lines => lines.foldl processLine []

/-! ## theme_manager: fallbackColors and buildCSSFromColors -/

/-- `ThemeManager::fallbackColors` (lines 185-202): the Catppuccin Mocha
palette. -/
def fallbackColors : List (String × String) :=
  [("background", "#1e1e2e"),
   ("foreground", "#cdd6f4"),
   ("primary", "#89b4fa"),
   ("secondary", "#f5c2e7"),
   ("accent", "#a6e3a1"),
   ("border", "#45475a")]

/-- The `get` lambda of buildCSSFromColors (lines 208-213): `colors.find`
with a per-slot default. -/
def cssGet (colors : List (String × String)) (key dflt : String) : String :=
  match colors.lookup key with
  | some v => v
  | none => dflt

/-- `ThemeManager::buildCSSFromColors` (lines 204-270): resolve each slot
with its inline default, then emit the fixed sequence of CSS rules. The
local `accent` (line 224) is kept even though the emitted rules never use
it, mirroring the source. -/
def buildCSSFromColors (colors : List (String × String)) : String :=
  let bg := cssGet colors "background" "#1e1e2e"
  let fg := cssGet colors "foreground" "#cdd6f4"
  let defaultAccent := cssGet colors "accent" "#89b4fa"
  let primary := cssGet colors "primary" defaultAccent
  let accent := cssGet colors "accent" primary
  let border := cssGet colors "border" "#45475a"
  let buttonBg₀ := cssGet colors "secondary" "#313244"
  let buttonBg := if buttonBg₀ = "" then "#313244" else buttonBg₀
  let buttonHover₀ := cssGet colors "accent" primary
  let buttonHover := if buttonHover₀ = "" then "#45475a" else buttonHover₀
  let _ := accent
  "window \x7b background-color: " ++ bg ++ "; color: " ++ fg ++
    "; \x7d\n" ++
  "frame \x7b margin: 10px; border: 1px solid " ++ border ++
    "; border-radius: 8px; padding: 12px; \x7d\n" ++
  "scale highlight \x7b background-color: " ++ primary ++ "; \x7d\n" ++
  "button \x7b margin: 4px; padding: 8px; background-color: " ++
    buttonBg ++ "; border: none; border-radius: 4px; color: " ++ fg ++
    "; \x7d\n" ++
  "button:hover \x7b background-color: " ++ buttonHover ++ "; \x7d\n" ++
  "label \x7b font-size: 16px; margin: 0 10px; color: " ++ fg ++
    "; \x7d\n" ++
  "dropdown, combobox \x7b background-color: " ++ buttonBg ++
    "; color: " ++ fg ++ "; border: 1px solid " ++ border ++
    "; border-radius: 4px; padding: 6px; \x7d\n" ++
  "dropdown:hover, combobox:hover \x7b background-color: " ++
    buttonHover ++ "; \x7d\n"

/-- The per-slot inline defaults hard-coded inside buildCSSFromColors
(lines 217-229): what an empty theme resolves to. Distinct from
`fallbackColors`, whose `secondary` and `accent` entries differ. -/
def builderInlineDefaults : List (String × String) :=
  [("background", "#1e1e2e"),
   ("foreground", "#cdd6f4"),
   ("primary", "#89b4fa"),
   ("secondary", "#313244"),
   ("accent", "#89b4fa"),
   ("border", "#45475a")]

/-! ## theme_manager: watch lifecycle (lines 294-364)

`ThemeManager`'s members `m_monitor` + `m_monitor_conn` (a held, connected
file-monitor subscription) and `m_callback` become an explicit state, with
test-double counters `subs`/`unsubs` for subscribe and unsubscribe events
and `active` counting the live subscriptions in the file-watch facility
(a leak would leave `active` above the number of held handles). Callbacks
are abstracted to opaque identifiers (`Option Nat`; `none` is an empty
`std::function`). The environment of one call — whether `getThemePath`
resolves a path and whether `monitor_file()` succeeds — is supplied by the
caller. -/

/-- Watcher state plus test-double counters. -/
structure WatchState where
  held : Bool
  callback : Option Nat
  active : Nat
  subs : Nat
  unsubs : Nat
deriving DecidableEq

/-- The freshly constructed `ThemeManager` (constructor, lines 77-82). -/
def initWatchState : WatchState :=
  { held := false, callback := none, active := 0, subs := 0, unsubs := 0 }

/-- Environment of a single `watchThemeFile` call. -/
structure WatcherEnv where
  pathExists : Bool
  subscribeOk : Bool
deriving DecidableEq

/-- `Gio::FileMonitor::Event` kinds reaching the connected lambda
(lines 326-342). -/
inductive FileEvent where
  | changed
  | changesDoneHint
  | created
  | deleted
  | other
deriving DecidableEq

/-- `ThemeManager::unwatchThemeFile` (lines 352-364): disconnect the signal
connection and reset the monitor handle. The held subscription (if any) is
released; `m_callback` is not touched. -/
def unwatchThemeFile (s : WatchState) : WatchState :=
  { s with
    held := false
    active := if s.held then s.active - 1 else s.active
    unsubs := if s.held then s.unsubs + 1 else s.unsubs }

/-- `ThemeManager::watchThemeFile` (lines 294-350): store the callback
first; return early if no theme path resolves (lines 301-306, leaving any
prior subscription in place); otherwise release the prior subscription
(line 310) and try to establish a new one, staying unsubscribed if
`monitor_file` raises (lines 344-349). -/
def watchThemeFile (s : WatchState) (cb : Option Nat) (env : WatcherEnv) :
    WatchState :=
  let s₁ := { s with callback := cb }
  if !env.pathExists then s₁
  else
    let s₂ := unwatchThemeFile s₁
    if env.subscribeOk then
      { s₂ with held := true, active := s₂.active + 1, subs := s₂.subs + 1 }
    else s₂

/-- Delivery of one file-monitor event (the lambda of lines 326-342):
returns whether `m_callback` is invoked. The connection must still be live
(`held`), the event kind must be CHANGED or CHANGES_DONE_HINT, and the
stored callback must be non-empty. -/
def deliverEvent (s : WatchState) (e : FileEvent) : Bool :=
  s.held && (e = FileEvent.changed || e = FileEvent.changesDoneHint) &&
    s.callback.isSome

/-! # Theorems -/

/-! ## C1: empty theme versus fallback palette -/

set_option maxRecDepth 20000 in
/-- C1 counterexample: `buildCSSFromColors {}` is NOT byte-identical to
`buildCSSFromColors (fallbackColors)`. An empty theme resolves the button
background to the inline default `#313244` and the hover color to the
resolved primary `#89b4fa`, while the fallback palette supplies its
`secondary` `#f5c2e7` and `accent` `#a6e3a1` for those slots, so the two
stylesheets differ in the button and dropdown rules. -/
theorem buildCSSFromColors_empty_ne_fallback :
    buildCSSFromColors [] ≠ buildCSSFromColors fallbackColors := by
  decide

set_option maxRecDepth 20000 in
/-- C1 (amended): the stylesheet built from the empty theme is
byte-identical to the stylesheet built from the builder's own inline
default palette (which differs from `fallbackColors` in the `secondary`
and `accent` entries), not to the one built from `fallbackColors`. -/
theorem buildCSSFromColors_empty_eq_inline_defaults :
    buildCSSFromColors [] = buildCSSFromColors builderInlineDefaults := by
  decide

/-! ## C2: watchThemeFile subscription lifecycle -/

/-- C2 counterexample: `watchThemeFile` does not release an existing
subscription unconditionally. Concretely: after a successful start (path
resolved, subscription established), a second call made when the theme
file no longer exists returns before `unwatchThemeFile`, so a subscription
was active going into the call yet the unsubscribe counter does not
increase — the stale subscription is not released (it simply stays the
active one). -/
theorem watchThemeFile_counterexample :
    (watchThemeFile initWatchState (some 0) ⟨true, true⟩).held = true ∧
    ¬((watchThemeFile (watchThemeFile initWatchState (some 0) ⟨true, true⟩)
          (some 1) ⟨false, true⟩).unsubs =
        (watchThemeFile initWatchState (some 0) ⟨true, true⟩).unsubs + 1) := by
  decide

/-- C2 (amended): `watchThemeFile` releases an existing subscription only
when a theme path resolves (when the theme file is absent it returns
early, leaving any prior subscription active); whenever it establishes a
new subscription the prior one has been released first. Consequently,
from any state with at most one active subscription, the call leaves at
most one active subscription — one or zero, never two — and the stored
callback is always replaced. -/
theorem watchThemeFile_subscription_discipline (s : WatchState)
    (cb : Option Nat) (env : WatcherEnv)
    (h : s.active = if s.held then 1 else 0) :
    ((watchThemeFile s cb env).active =
        if (watchThemeFile s cb env).held then 1 else 0) ∧
    (watchThemeFile s cb env).active ≤ 1 ∧
    (watchThemeFile s cb env).unsubs =
      s.unsubs + (if s.held ∧ env.pathExists then 1 else 0) ∧
    (watchThemeFile s cb env).subs =
      s.subs + (if env.pathExists ∧ env.subscribeOk then 1 else 0) ∧
    (watchThemeFile s cb env).callback = cb := by
  unfold watchThemeFile unwatchThemeFile
  rcases env with ⟨pe, so⟩
  rcases s with ⟨held, cb₀, active, subs, unsubs⟩
  simp only at h ⊢
  cases pe <;> cases so <;> cases held <;> simp_all

/-- Witness for C2: the amended theorem applied to the fresh manager
with an existing theme file and a successful subscription. -/
theorem watchThemeFile_subscription_discipline_witness :
    initWatchState.active = (if initWatchState.held then 1 else 0) ∧
    (watchThemeFile initWatchState (some 0) ⟨true, true⟩).active ≤ 1 ∧
    (watchThemeFile initWatchState (some 0) ⟨true, true⟩).subs =
      initWatchState.subs + 1 := by
  refine ⟨by decide, ?_, ?_⟩
  · exact (watchThemeFile_subscription_discipline initWatchState (some 0)
      ⟨true, true⟩ (by decide)).2.1
  · have h := (watchThemeFile_subscription_discipline initWatchState (some 0)
      ⟨true, true⟩ (by decide)).2.2.2.1
    simpa using h

/-! ## C3: unwatchThemeFile -/

/-- C3 counterexample: `unwatchThemeFile` does not clear the stored
callback reference. Concretely: start a watch with a stored callback and
then stop it; after `unwatchThemeFile` returns, `m_callback` is still the
stored callback, not null. -/
theorem unwatchThemeFile_counterexample :
    ¬((unwatchThemeFile
          (watchThemeFile initWatchState (some 0) ⟨true, true⟩)).callback =
        none) := by
  decide

/-- C3 (amended): from any state, `unwatchThemeFile` releases the held
subscription (the handle is dropped and the unsubscribe is delivered to
the facility), but the stored callback reference is left unchanged — it
is NOT cleared. No notification can invoke the callback after return all
the same, because the signal connection is disconnected: event delivery
on the post-state never invokes the callback. -/
theorem unwatchThemeFile_releases_and_silences (s : WatchState)
    (e : FileEvent) :
    (unwatchThemeFile s).held = false ∧
    (unwatchThemeFile s).unsubs = s.unsubs + (if s.held then 1 else 0) ∧
    (unwatchThemeFile s).active = s.active - (if s.held then 1 else 0) ∧
    (unwatchThemeFile s).callback = s.callback ∧
    deliverEvent (unwatchThemeFile s) e = false := by
  unfold unwatchThemeFile deliverEvent
  cases h : s.held <;> simp

/-! ## C6: applyMonitor validates before any external call -/

/-- C6: for every runner and every input with an empty name or a
non-positive width, height or refresh rate, `applyMonitor` fails
immediately with the message "Invalid parameters" and performs no external
invocation; conversely, whenever an external invocation was performed, all
four validity conditions held. -/
theorem applyMonitor_validates_before_invocation
    (runner : List String → SpawnResult) (name : String)
    (width height refreshRate posX posY : Int) (scale : ℚ) :
    ((name = "" ∨ width ≤ 0 ∨ height ≤ 0 ∨ refreshRate ≤ 0) →
      applyMonitor runner name width height refreshRate posX posY scale =
        { success := false, error := some "Invalid parameters",
          invocations := [] }) ∧
    ((applyMonitor runner name width height refreshRate posX posY
        scale).invocations ≠ [] →
      name ≠ "" ∧ 0 < width ∧ 0 < height ∧ 0 < refreshRate) := by
  constructor
  · intro h
    unfold applyMonitor
    simp [if_pos h]
  · intro h
    unfold applyMonitor at h
    by_cases hv : name = "" ∨ width ≤ 0 ∨ height ≤ 0 ∨ refreshRate ≤ 0
    · rw [if_pos hv] at h
      simp at h
    · push_neg at hv
      obtain ⟨h₁, h₂, h₃, h₄⟩ := hv
      exact ⟨h₁, by omega, by omega, by omega⟩

/-- Witness for C6: the spec's own test vector
`applyMonitor("", 1920, 1080, 60, 0, 0, 1.0)` fails with the validation
message and performs no process invocation. -/
theorem applyMonitor_validates_before_invocation_witness :
    applyMonitor (fun _ => SpawnResult.finished "" "" 0) "" 1920 1080 60 0 0
        1 =
      { success := false, error := some "Invalid parameters",
        invocations := [] } :=
  (applyMonitor_validates_before_invocation
      (fun _ => SpawnResult.finished "" "" 0) "" 1920 1080 60 0 0 1).1
    (Or.inl rfl)

/-! ## C7: applyMonitor command format -/

/-- C7: on valid input, regardless of the runner's outcome, exactly one
external invocation is performed, with argv
`hyprctl keyword monitor <name>,<w>x<h>@<hz>,<x>x<y>,<scale>`; in
particular the spec's example `applyMonitor("eDP-1", 1920, 1080, 144, 0,
0, 1.0)` passes the literal argument "eDP-1,1920x1080@144,0x0,1" (the
default ostream formatting of the double 1.0 is the plain decimal "1"). -/
theorem applyMonitor_command_format :
    (∀ (runner : List String → SpawnResult) (name : String)
       (width height refreshRate posX posY : Int) (scale : ℚ),
       name ≠ "" → 0 < width → 0 < height → 0 < refreshRate →
       (applyMonitor runner name width height refreshRate posX posY
           scale).invocations =
         [["hyprctl", "keyword", "monitor",
           name ++ "," ++ toString width ++ "x" ++ toString height ++ "@" ++
           toString refreshRate ++ "," ++ toString posX ++ "x" ++
           toString posY ++ "," ++ fmtDouble scale]]) ∧
    (∀ runner,
       (applyMonitor runner "eDP-1" 1920 1080 144 0 0 1).invocations =
         [["hyprctl", "keyword", "monitor", "eDP-1,1920x1080@144,0x0,1"]]) := by
  have base : ∀ (runner : List String → SpawnResult) (name : String)
      (width height refreshRate posX posY : Int) (scale : ℚ),
      name ≠ "" → 0 < width → 0 < height → 0 < refreshRate →
      (applyMonitor runner name width height refreshRate posX posY
          scale).invocations =
        [["hyprctl", "keyword", "monitor",
          name ++ "," ++ toString width ++ "x" ++ toString height ++ "@" ++
          toString refreshRate ++ "," ++ toString posX ++ "x" ++
          toString posY ++ "," ++ fmtDouble scale]] := by
    intro runner name width height refreshRate posX posY scale h₁ h₂ h₃ h₄
    simp only [applyMonitor]
    rw [if_neg (by push_neg; exact ⟨h₁, by omega, by omega, by omega⟩)]
    split
    · simp [String.append_assoc]
    · split <;> simp [String.append_assoc]
  refine ⟨base, fun runner => ?_⟩
  rw [base runner "eDP-1" 1920 1080 144 0 0 1 (by decide) (by decide)
    (by decide) (by decide)]
  decide

/-- Witness for C7: the general format statement applied to a concrete
valid input with a fractional scale (ostream prints the double 1.5 as
"1.5"). -/
theorem applyMonitor_command_format_witness :
    (applyMonitor (fun _ => SpawnResult.finished "" "" 0) "HDMI-A-1" 2560
        1440 75 100 200 (mkRat 3 2)).invocations =
      [["hyprctl", "keyword", "monitor",
        "HDMI-A-1,2560x1440@75,100x200,1.5"]] := by
  rw [applyMonitor_command_format.1 (fun _ => SpawnResult.finished "" "" 0)
    "HDMI-A-1" 2560 1440 75 100 200 (mkRat 3 2) (by decide) (by decide)
    (by decide) (by decide)]
  decide

/-! ## C8: applyMonitor result interpretation -/

/-- C8: on valid input, when the external command runs and exits non-zero
the result is failure with error text taken from stderr if non-empty, else
from stdout if non-empty, else a synthesized message embedding the numeric
exit status; when it exits zero the result is success regardless of the
captured output. -/
theorem applyMonitor_result_interpretation (name : String)
    (width height refreshRate posX posY : Int) (scale : ℚ)
    (stdoutStr stderrStr : String) (exitStatus : Int)
    (h₁ : name ≠ "") (h₂ : 0 < width) (h₃ : 0 < height)
    (h₄ : 0 < refreshRate) :
    (exitStatus ≠ 0 →
      (applyMonitor (fun _ => SpawnResult.finished stdoutStr stderrStr
          exitStatus) name width height refreshRate posX posY
          scale).success = false ∧
      (applyMonitor (fun _ => SpawnResult.finished stdoutStr stderrStr
          exitStatus) name width height refreshRate posX posY
          scale).error =
        some (if stderrStr ≠ "" then stderrStr
              else if stdoutStr ≠ "" then stdoutStr
              else "hyprctl failed with exit code " ++
                toString exitStatus)) ∧
    (exitStatus = 0 →
      (applyMonitor (fun _ => SpawnResult.finished stdoutStr stderrStr
          exitStatus) name width height refreshRate posX posY
          scale).success = true) := by
  simp only [applyMonitor]
  rw [if_neg (by push_neg; exact ⟨h₁, by omega, by omega, by omega⟩)]
  constructor
  · intro hex
    rw [if_pos hex]
    refine ⟨rfl, ?_⟩
    by_cases he : stderrStr = "" <;> by_cases ho : stdoutStr = "" <;>
      simp [he, ho]
  · intro hex
    rw [if_neg (by simp [hex])]

/-- Witness for C8: a visible failure (exit 3, empty stderr, non-empty
stdout) surfaces the stdout text, per the theorem applied at concrete
inputs. -/
theorem applyMonitor_result_interpretation_witness :
    (applyMonitor (fun _ => SpawnResult.finished "bad mode" "" 3) "eDP-1"
        1920 1080 60 0 0 1).success = false ∧
    (applyMonitor (fun _ => SpawnResult.finished "bad mode" "" 3) "eDP-1"
        1920 1080 60 0 0 1).error = some "bad mode" := by
  have h := (applyMonitor_result_interpretation "eDP-1" 1920 1080 60 0 0 1
      "bad mode" "" 3 (by decide) (by decide) (by decide) (by decide)).1
    (by decide)
  exact ⟨h.1, by rw [h.2]; decide⟩

/-! ## Helper lemmas about the Except embedding of nlohmann exceptions -/

theorem exceptBindOk {ε α β : Type} (a : α) (f : α → Except ε β) :
    (Except.ok a >>= f) = f a := rfl

theorem exceptBindError {ε α β : Type} (e : ε) (f : α → Except ε β) :
    ((Except.error e : Except ε α) >>= f) = Except.error e := rfl

theorem exceptPure {ε α : Type} (a : α) :
    (pure a : Except ε α) = Except.ok a := rfl

/-- Inversion for a successful `parseModeEntry`. -/
theorem parseModeEntry_ok_elim (m : Json) (d : DisplayMode)
    (h : parseModeEntry m = .ok d) :
    ∃ w hh r, m.valueI "width" 0 = .ok w ∧ m.valueI "height" 0 = .ok hh ∧
      refreshFrom m = .ok r ∧
      d = { width := w, height := hh, refreshRate := r } := by
  unfold parseModeEntry at h
  rcases hw : m.valueI "width" 0 with e | w
  · simp only [hw, exceptBindError] at h
    exact Except.noConfusion h
  simp only [hw, exceptBindOk] at h
  rcases hh : m.valueI "height" 0 with e | hgt
  · simp only [hh, exceptBindError] at h
    exact Except.noConfusion h
  simp only [hh, exceptBindOk] at h
  rcases hr : refreshFrom m with e | r
  · simp only [hr, exceptBindError] at h
    exact Except.noConfusion h
  simp only [hr, exceptBindOk, exceptPure, Except.ok.injEq] at h
  exact ⟨w, hgt, r, rfl, rfl, rfl, h.symm⟩

/-- Characterization of the refresh-rate extraction chain. -/
theorem refreshFrom_spec (j : Json) (r : Int) (h : refreshFrom j = .ok r) :
    (∀ q, j.find "refreshRate" = some (.num q) → r = truncQ q) ∧
    (j.find "refreshRate" = none →
      ∀ q, j.find "refresh_rate" = some (.num q) → r = truncQ q) ∧
    (j.find "refreshRate" = none → j.find "refresh_rate" = none →
      r = 60) := by
  unfold refreshFrom at h
  rcases h₁ : j.find "refreshRate" with _ | v
  · rcases h₂ : j.find "refresh_rate" with _ | w
    · refine ⟨fun q hq => Option.noConfusion hq,
              fun _ q hq => Option.noConfusion hq, fun _ _ => ?_⟩
      rw [h₁, h₂] at h
      injection h with h'
      omega
    · refine ⟨fun q hq => Option.noConfusion hq, fun _ q hq => ?_,
              fun _ h₃ => Option.noConfusion h₃⟩
      cases hq
      rw [h₁, h₂] at h
      injection h with h'
      exact h'.symm
  · refine ⟨fun q hq => ?_, fun h₂ _ _ => Option.noConfusion h₂,
            fun h₂ _ => Option.noConfusion h₂⟩
    cases hq
    rw [h₁] at h
    injection h with h'
    exact h'.symm

/-- Inversion for a successful `parseMonitor` returning a monitor. -/
theorem parseMonitor_ok_elim (j : Json) (info : MonitorInfo)
    (h : parseMonitor j = .ok (some info)) :
    ∃ name x y scale cw ch cr ms,
      j.find "name" = some (.str name) ∧
      j.valueI "x" 0 = .ok x ∧
      j.valueI "y" 0 = .ok y ∧
      j.valueQ "scale" 1 = .ok scale ∧
      j.valueI "width" 0 = .ok cw ∧
      j.valueI "height" 0 = .ok ch ∧
      refreshFrom j = .ok cr ∧
      validModes j = .ok ms ∧
      info = { name := name, x := x, y := y, scale := scale,
               modes := if ms = [] ∧ 0 < cw ∧ 0 < ch ∧ 0 < cr then
                   [{ width := cw, height := ch, refreshRate := cr }]
                 else ms,
               current := { width := cw, height := ch,
                            refreshRate := cr } } := by
  unfold parseMonitor at h
  rcases hn : j.find "name" with _ | v
  · rw [hn] at h
    simp at h
  rw [hn] at h
  cases v with
  | null => simp at h
  | bool b => simp at h
  | num q => simp at h
  | arr xs => simp at h
  | obj fs => simp at h
  | str name =>
    rcases hx : j.valueI "x" 0 with e | x
    · simp only [hx, exceptBindError] at h
      exact Except.noConfusion h
    simp only [hx, exceptBindOk] at h
    rcases hy : j.valueI "y" 0 with e | y
    · simp only [hy, exceptBindError] at h
      exact Except.noConfusion h
    simp only [hy, exceptBindOk] at h
    rcases hs : j.valueQ "scale" 1 with e | scale
    · simp only [hs, exceptBindError] at h
      exact Except.noConfusion h
    simp only [hs, exceptBindOk] at h
    rcases hw : j.valueI "width" 0 with e | cw
    · simp only [hw, exceptBindError] at h
      exact Except.noConfusion h
    simp only [hw, exceptBindOk] at h
    rcases hh : j.valueI "height" 0 with e | ch
    · simp only [hh, exceptBindError] at h
      exact Except.noConfusion h
    simp only [hh, exceptBindOk] at h
    rcases hr : refreshFrom j with e | cr
    · simp only [hr, exceptBindError] at h
      exact Except.noConfusion h
    simp only [hr, exceptBindOk] at h
    rcases hm : validModes j with e | ms
    · simp only [hm, exceptBindError] at h
      exact Except.noConfusion h
    simp only [hm, exceptBindOk, exceptPure, Except.ok.injEq,
      Option.some.injEq] at h
    exact ⟨name, x, y, scale, cw, ch, cr, ms, rfl, rfl, rfl, rfl, rfl, rfl,
      rfl, rfl, h.symm⟩

/-- Every mode surviving the filter of the modes loop is strictly
positive in all three fields. -/
theorem validModesAux_pos (ms : List Json) (l : List DisplayMode)
    (h : validModesAux ms = .ok l) :
    ∀ m ∈ l, 0 < m.width ∧ 0 < m.height ∧ 0 < m.refreshRate := by
  induction ms generalizing l with
  | nil =>
    unfold validModesAux at h
    injection h with h'
    subst h'
    intro m hm
    exact absurd hm (List.not_mem_nil m)
  | cons e rest ih =>
    unfold validModesAux at h
    rcases hp : parseModeEntry e with err | mode
    · simp only [hp, exceptBindError] at h
      exact Except.noConfusion h
    simp only [hp, exceptBindOk] at h
    rcases ht : validModesAux rest with err | tail
    · simp only [ht, exceptBindError] at h
      exact Except.noConfusion h
    simp only [ht, exceptBindOk, exceptPure, Except.ok.injEq] at h
    subst h
    intro m hm
    by_cases hc : 0 < mode.width ∧ 0 < mode.height ∧ 0 < mode.refreshRate
    · rw [if_pos hc] at hm
      rcases List.mem_cons.mp hm with rfl | hm
      · exact hc
      · exact ih tail ht m hm
    · rw [if_neg hc] at hm
      exact ih tail ht m hm

/-- Same statement for the whole `modes` field extraction. -/
theorem validModes_pos (j : Json) (l : List DisplayMode)
    (h : validModes j = .ok l) :
    ∀ m ∈ l, 0 < m.width ∧ 0 < m.height ∧ 0 < m.refreshRate := by
  unfold validModes at h
  rcases hf : j.find "modes" with _ | v
  · rw [hf] at h
    injection h with h'
    subst h'
    intro m hm
    exact absurd hm (List.not_mem_nil m)
  · rw [hf] at h
    cases v with
    | arr ms => exact validModesAux_pos ms l h
    | null =>
      injection h with h'
      subst h'
      intro m hm
      exact absurd hm (List.not_mem_nil m)
    | bool b =>
      injection h with h'
      subst h'
      intro m hm
      exact absurd hm (List.not_mem_nil m)
    | num q =>
      injection h with h'
      subst h'
      intro m hm
      exact absurd hm (List.not_mem_nil m)
    | str s =>
      injection h with h'
      subst h'
      intro m hm
      exact absurd hm (List.not_mem_nil m)
    | obj fs =>
      injection h with h'
      subst h'
      intro m hm
      exact absurd hm (List.not_mem_nil m)

/-- Every mode of a parsed monitor is strictly positive in all three
fields: either it survived the filter, or it is the strictly positive
current mode installed by the fallback. -/
theorem parseMonitor_modes_pos (j : Json) (info : MonitorInfo)
    (h : parseMonitor j = .ok (some info)) :
    ∀ m ∈ info.modes, 0 < m.width ∧ 0 < m.height ∧ 0 < m.refreshRate := by
  obtain ⟨name, x, y, scale, cw, ch, cr, ms, hn, hx, hy, hs, hw, hh, hr, hm,
    rfl⟩ := parseMonitor_ok_elim j info h
  intro m hmem
  simp only at hmem
  by_cases hc : ms = [] ∧ 0 < cw ∧ 0 < ch ∧ 0 < cr
  · rw [if_pos hc] at hmem
    rcases List.mem_cons.mp hmem with rfl | hmem
    · exact ⟨hc.2.1, hc.2.2.1, hc.2.2.2⟩
    · exact absurd hmem (List.not_mem_nil m)
  · rw [if_neg hc] at hmem
    exact validModes_pos j ms hm m hmem

/-- Every monitor in the output of the element loop was produced by a
successful `parseMonitor` on one of the input elements. -/
theorem getMonitorsAux_mem (es : List Json) (l : List MonitorInfo)
    (h : getMonitorsAux es = .ok l) :
    ∀ info ∈ l, ∃ e ∈ es, parseMonitor e = .ok (some info) := by
  induction es generalizing l with
  | nil =>
    unfold getMonitorsAux at h
    injection h with h'
    subst h'
    intro info hi
    exact absurd hi (List.not_mem_nil info)
  | cons e rest ih =>
    unfold getMonitorsAux at h
    rcases hp : parseMonitor e with err | info?
    · simp only [hp, exceptBindError] at h
      exact Except.noConfusion h
    simp only [hp, exceptBindOk] at h
    rcases ht : getMonitorsAux rest with err | tail
    · simp only [ht, exceptBindError] at h
      exact Except.noConfusion h
    simp only [ht, exceptBindOk, exceptPure, Except.ok.injEq] at h
    cases info? with
    | some i =>
      subst h
      intro info hi
      rcases List.mem_cons.mp hi with rfl | hi
      · exact ⟨e, List.mem_cons_self e rest, hp⟩
      · obtain ⟨e₂, he₂, hpe₂⟩ := ih tail ht info hi
        exact ⟨e₂, List.mem_cons_of_mem e he₂, hpe₂⟩
    | none =>
      subst h
      intro info hi
      obtain ⟨e₂, he₂, hpe₂⟩ := ih tail ht info hi
      exact ⟨e₂, List.mem_cons_of_mem e he₂, hpe₂⟩

/-- A successful `getMonitors` result is either one of the degraded empty
results or the output of the element loop on the parsed array. -/
theorem getMonitors_ok_elim (parse : String → Option Json) (r : SpawnResult)
    (l : List MonitorInfo) (h : getMonitors parse r = .ok l) :
    l = [] ∨ ∃ elems, getMonitorsAux elems = .ok l := by
  unfold getMonitors at h
  split at h
  · injection h with h'
    exact Or.inl h'.symm
  · split at h
    · injection h with h'
      exact Or.inl h'.symm
    · split at h
      · injection h with h'
        exact Or.inl h'.symm
      · split at h
        · exact Or.inr ⟨_, h⟩
        · injection h with h'
          exact Or.inl h'.symm

/-! ## C4: getMonitors error handling (code bug) -/

/-- C4 (code bug exhibit): `getMonitors` is advertised never to raise —
every degraded case returns the empty list — but a monitor element whose
optional field is present with a non-numeric type defeats this. With the
spawn succeeding (exit 0, non-empty stdout) and stdout parsing to the
array `[{"name":"A","x":"bad"}]`, the element has a string `name`, yet
`j.value("x", 0)` raises nlohmann `type_error.302`, which the per-element
loop of lines 178-183 does not catch, so the exception escapes to the
caller instead of the element being returned (or skipped). -/
theorem getMonitors_raises_on_mistyped_field :
    getMonitors
        (fun _ => some (Json.arr [Json.obj
          [("name", Json.str "A"), ("x", Json.str "bad")]]))
        (SpawnResult.finished
          "[\x7b\"name\":\"A\",\"x\":\"bad\"\x7d]" "" 0) =
      Except.error JErr.typeError := by
  decide

/-! ## C5: parsed modes invariant -/

/-- C5: (a) every mode list entry of every monitor returned by a
successful `getMonitors` has strictly positive width, height and refresh
rate; (b) whenever a parsed element's modes array yielded zero valid
modes while the current mode is strictly positive in all three fields,
the parsed monitor's mode list is exactly the one-element list holding
the current mode. -/
theorem getMonitors_modes_invariant :
    (∀ (parse : String → Option Json) (r : SpawnResult)
       (l : List MonitorInfo),
       getMonitors parse r = .ok l →
       ∀ info ∈ l, ∀ m ∈ info.modes,
         0 < m.width ∧ 0 < m.height ∧ 0 < m.refreshRate) ∧
    (∀ (j : Json) (info : MonitorInfo),
       parseMonitor j = .ok (some info) → validModes j = .ok [] →
       0 < info.current.width → 0 < info.current.height →
       0 < info.current.refreshRate →
       info.modes = [info.current]) := by
  constructor
  · intro parse r l h info hinfo m hm
    rcases getMonitors_ok_elim parse r l h with rfl | ⟨elems, helems⟩
    · exact absurd hinfo (List.not_mem_nil info)
    · obtain ⟨e, _, hpe⟩ := getMonitorsAux_mem elems l helems info hinfo
      exact parseMonitor_modes_pos e info hpe m hm
  · intro j info h hvm hcw hch hcr
    obtain ⟨name, x, y, scale, cw, ch, cr, ms, hn, hx, hy, hs, hw, hh, hr,
      hm, rfl⟩ := parseMonitor_ok_elim j info h
    rw [hm] at hvm
    injection hvm with hms
    show (if ms = [] ∧ 0 < cw ∧ 0 < ch ∧ 0 < cr then
        [{ width := cw, height := ch, refreshRate := cr }] else ms) =
      [{ width := cw, height := ch, refreshRate := cr }]
    rw [if_pos ⟨hms, hcw, hch, hcr⟩]

/-- Witness for C5: a monitor element with a positive current mode and no
modes array parses to a monitor whose mode list is exactly its current
mode, per the theorem applied at that element; and the positivity
statement applied to a concrete successful query. -/
theorem getMonitors_modes_invariant_witness :
    ({ name := "A", x := 0, y := 0, scale := 1,
       modes := [{ width := 1920, height := 1080, refreshRate := 60 }],
       current := { width := 1920, height := 1080, refreshRate := 60 } }
        : MonitorInfo).modes =
      [({ name := "A", x := 0, y := 0, scale := 1,
          modes := [{ width := 1920, height := 1080, refreshRate := 60 }],
          current := { width := 1920, height := 1080, refreshRate := 60 } }
          : MonitorInfo).current] :=
  getMonitors_modes_invariant.2
    (Json.obj [("name", Json.str "A"), ("width", Json.num 1920),
      ("height", Json.num 1080)])
    { name := "A", x := 0, y := 0, scale := 1,
      modes := [{ width := 1920, height := 1080, refreshRate := 60 }],
      current := { width := 1920, height := 1080, refreshRate := 60 } }
    (by decide) (by decide) (by decide) (by decide) (by decide)

/-! ## C9: refresh-rate field precedence and truncation -/

/-- C9: for every successfully parsed monitor element, the current-mode
refresh rate comes from the newer field spelling `refreshRate` when that
field is present (as a number, truncated toward zero), else from the
older spelling `refresh_rate` (same treatment), else defaults to 60; and
the identical rule governs each parsed entry of the modes array. -/
theorem parseMonitor_refresh_rule :
    (∀ (j : Json) (info : MonitorInfo), parseMonitor j = .ok (some info) →
       (∀ q, j.find "refreshRate" = some (.num q) →
          info.current.refreshRate = truncQ q) ∧
       (j.find "refreshRate" = none →
        ∀ q, j.find "refresh_rate" = some (.num q) →
          info.current.refreshRate = truncQ q) ∧
       (j.find "refreshRate" = none → j.find "refresh_rate" = none →
          info.current.refreshRate = 60)) ∧
    (∀ (m : Json) (d : DisplayMode), parseModeEntry m = .ok d →
       (∀ q, m.find "refreshRate" = some (.num q) →
          d.refreshRate = truncQ q) ∧
       (m.find "refreshRate" = none →
        ∀ q, m.find "refresh_rate" = some (.num q) →
          d.refreshRate = truncQ q) ∧
       (m.find "refreshRate" = none → m.find "refresh_rate" = none →
          d.refreshRate = 60)) := by
  constructor
  · intro j info h
    obtain ⟨name, x, y, scale, cw, ch, cr, ms, hn, hx, hy, hs, hw, hh, hr,
      hm, rfl⟩ := parseMonitor_ok_elim j info h
    simpa only using refreshFrom_spec j cr hr
  · intro m d h
    obtain ⟨w, hgt, r, hw, hh, hr, rfl⟩ := parseModeEntry_ok_elim m d h
    simpa only using refreshFrom_spec m r hr

/-- Witness for C9: a monitor element carrying only the older spelling
with a fractional value (59.9) parses with the truncated current refresh
rate 59, per the theorem's second conditional applied there; an element
with neither spelling gets the 60 default. -/
theorem parseMonitor_refresh_rule_witness :
    ({ name := "A", x := 0, y := 0, scale := 1, modes := [],
       current := { width := 0, height := 0, refreshRate := 59 } }
        : MonitorInfo).current.refreshRate = truncQ (mkRat 599 10) ∧
    ({ width := 0, height := 0, refreshRate := 60 }
        : DisplayMode).refreshRate = 60 := by
  constructor
  · exact (parseMonitor_refresh_rule.1
        (Json.obj [("name", Json.str "A"),
          ("refresh_rate", Json.num (mkRat 599 10))])
        { name := "A", x := 0, y := 0, scale := 1, modes := [],
          current := { width := 0, height := 0, refreshRate := 59 } }
        (by decide)).2.1 rfl (mkRat 599 10) rfl
  · exact (parseMonitor_refresh_rule.2 (Json.obj [("width", Json.num 1)])
        { width := 1, height := 0, refreshRate := 60 }
        (by decide)).2.2 rfl rfl

/-! ## Helper lemmas for the theme-file parser -/

theorem processLine_skip_empty (colors : List (String × String))
    (raw : String) (h : trim raw = "") : processLine colors raw = colors := by
  simp [processLine, h]

theorem processLine_skip_comment (colors : List (String × String))
    (raw : String) (h : startsWithChar (trim raw) '#' = true) :
    processLine colors raw = colors := by
  by_cases he : trim raw = ""
  · simp [processLine, he]
  · simp [processLine, he, h]

theorem processLine_skip_no_eq (colors : List (String × String))
    (raw : String) (h : splitAtFirstEq (trim raw).data = none) :
    processLine colors raw = colors := by
  by_cases he : trim raw = ""
  · simp [processLine, he]
  · by_cases hc : startsWithChar (trim raw) '#' = true
    · simp [processLine, he, hc]
    · simp [processLine, he, hc, h]

theorem processLine_accept_rule (colors : List (String × String))
    (raw : String) (pre post : List Char)
    (he : trim raw ≠ "") (hc : startsWithChar (trim raw) '#' = false)
    (hs : splitAtFirstEq (trim raw).data = some (pre, post)) :
    processLine colors raw =
      if trim (String.mk pre) ≠ "" ∧
         4 ≤ (trim (String.mk post)).utf8ByteSize ∧
         (startsWithChar (trim (String.mk post)) '#' = true ∨
          startsWithRgb (trim (String.mk post)) = true) then
        mapInsert colors (trim (String.mk pre)) (trim (String.mk post))
      else colors := by
  simp only [processLine]
  rw [if_neg he, if_neg (by simp [hc])]
  simp only [hs]
  refine if_congr ?_ rfl rfl
  constructor
  · rintro ⟨h₁, h₂, h₃⟩
    refine ⟨h₁, h₂, ?_⟩
    rcases h₃ with h₃ | ⟨_, h₃⟩
    · exact Or.inl h₃
    · exact Or.inr h₃
  · rintro ⟨h₁, h₂, h₃⟩
    refine ⟨h₁, h₂, ?_⟩
    rcases h₃ with h₃ | h₃
    · exact Or.inl h₃
    · exact Or.inr ⟨by omega, h₃⟩

theorem lookup_mapInsert (m : List (String × String)) (k v : String) :
    (mapInsert m k v).lookup k = some v := by
  induction m with
  | nil => simp [mapInsert, List.lookup]
  | cons p rest ih =>
    obtain ⟨k₀, v₀⟩ := p
    unfold mapInsert
    by_cases hk : k₀ = k
    · rw [if_pos hk]
      simp [List.lookup]
    · rw [if_neg hk]
      have hbeq : (k == k₀) = false :=
        beq_false_of_ne (fun hkk => hk hkk.symm)
      simp [List.lookup, hbeq, ih]

theorem parseThemeFile_last_wins (prior : List String) (raw : String)
    (pre post : List Char)
    (he : trim raw ≠ "") (hc : startsWithChar (trim raw) '#' = false)
    (hs : splitAtFirstEq (trim raw).data = some (pre, post))
    (hacc : trim (String.mk pre) ≠ "" ∧
      4 ≤ (trim (String.mk post)).utf8ByteSize ∧
      (startsWithChar (trim (String.mk post)) '#' = true ∨
       startsWithRgb (trim (String.mk post)) = true)) :
    (parseThemeFile (some (prior ++ [raw]))).lookup (trim (String.mk pre)) =
      some (trim (String.mk post)) := by
  show (List.foldl processLine [] (prior ++ [raw])).lookup
      (trim (String.mk pre)) = some (trim (String.mk post))
  rw [List.foldl_append]
  simp only [List.foldl_cons, List.foldl_nil]
  rw [processLine_accept_rule _ raw pre post he hc hs, if_pos hacc,
    lookup_mapInsert]

/-! ## C10: parseThemeFile -/

/-- C10: the theme-file parser (a) returns the empty mapping when the
file cannot be opened; (b) processing trimmed lines in order, skips empty
lines, comment lines whose first byte is `#`, and lines without `=`;
(c) for a line split at its first `=` into trimmed key and value, stores
the pair iff the key is non-empty, the value is at least 4 bytes long,
and the value begins with `#` or with the literal prefix `rgb`, leaving
the map unchanged otherwise; and (d) an accepted key stored by the last
line of the file wins: looking the key up yields that line's value,
whatever earlier lines bound it to. -/
theorem parseThemeFile_line_rules :
    parseThemeFile none = [] ∧
    (∀ (colors : List (String × String)) (raw : String), trim raw = "" →
       processLine colors raw = colors) ∧
    (∀ (colors : List (String × String)) (raw : String),
       startsWithChar (trim raw) '#' = true →
       processLine colors raw = colors) ∧
    (∀ (colors : List (String × String)) (raw : String),
       splitAtFirstEq (trim raw).data = none →
       processLine colors raw = colors) ∧
    (∀ (colors : List (String × String)) (raw : String)
       (pre post : List Char), trim raw ≠ "" →
       startsWithChar (trim raw) '#' = false →
       splitAtFirstEq (trim raw).data = some (pre, post) →
       processLine colors raw =
         if trim (String.mk pre) ≠ "" ∧
            4 ≤ (trim (String.mk post)).utf8ByteSize ∧
            (startsWithChar (trim (String.mk post)) '#' = true ∨
             startsWithRgb (trim (String.mk post)) = true) then
           mapInsert colors (trim (String.mk pre)) (trim (String.mk post))
         else colors) ∧
    (∀ (prior : List String) (raw : String) (pre post : List Char),
       trim raw ≠ "" → startsWithChar (trim raw) '#' = false →
       splitAtFirstEq (trim raw).data = some (pre, post) →
       (trim (String.mk pre) ≠ "" ∧
        4 ≤ (trim (String.mk post)).utf8ByteSize ∧
        (startsWithChar (trim (String.mk post)) '#' = true ∨
         startsWithRgb (trim (String.mk post)) = true)) →
       (parseThemeFile (some (prior ++ [raw]))).lookup
           (trim (String.mk pre)) =
         some (trim (String.mk post))) :=
  ⟨rfl, processLine_skip_empty, processLine_skip_comment,
    processLine_skip_no_eq, processLine_accept_rule,
    parseThemeFile_last_wins⟩

/-- Witness for C10: in a file whose last line rebinds `background`, the
lookup yields the last value, per the theorem's last-wins conjunct applied
to concrete lines (with a comment line and an earlier binding before
it). -/
theorem parseThemeFile_line_rules_witness :
    (parseThemeFile (some ["# theme", "background=#111111",
        "background = #222222"])).lookup "background" = some "#222222" := by
  have h := parseThemeFile_line_rules.2.2.2.2.2
    ["# theme", "background=#111111"] "background = #222222"
    "background ".data " #222222".data
    (by decide) (by decide) (by decide)
    ⟨by decide, by decide, by decide⟩
  have e₁ : trim (String.mk "background ".data) = "background" := by decide
  have e₂ : trim (String.mk " #222222".data) = "#222222" := by decide
  rw [e₁, e₂] at h
  exact h
